import Mathlib

/-! Event-loop stall monitor (`src/monitor.cc`).

A shallow embedding of the native add-on: the shared record `monitor_data_t`,
the snapshot capture (`CaptureStackTrace`, `OnMicrotasksCompleted`), the
delivery routine (`CallJsEventHandler`), the sampler loop
(`monitor_thread_func`) and the lifecycle (`StartMonitor`, `cleanup`).

Conventions.
* `size_t` and `uint64_t` are 64 bits wide, `uint32_t` and `unsigned int` 32 bits;
  they are natural numbers, reduced modulo the width where the code computes.
* A `char` is a natural number (its byte value); a `char` array is a list.
* What the code reads from a collaborator (libuv clock, V8 stack and heap
  statistics, the loop's request counter) is an argument of the embedded function.
-/

namespace Monitor

/-! ## Shared record -/

/-- The record `monitor_data_t` (lines 10-18). Pointers are `Option`s, `none` being `NULL`. -/
structure monitor_data_t where
  /-- Field `uv_loop_t* main_loop`. -/
  main_loop : Option Nat
  /-- Field `std::atomic<uint32_t> microtasks_count`. -/
  microtasks_count : Nat
  /-- Field `char top_function[256]`. -/
  top_function : List Nat
  /-- Field `size_t used_heap`. -/
  used_heap : Nat
  /-- Field `size_t total_heap`. -/
  total_heap : Nat
  /-- Field `std::atomic<int> stop_signal`. -/
  stop_signal : Int
  /-- Field `napi_threadsafe_function tsfn`, a handle. -/
  tsfn : Option Nat
deriving DecidableEq

/-- The zero-initialised `global_data` of line 20 (static storage duration). -/
def global_data_init : monitor_data_t :=
  { main_loop := none
    microtasks_count := 0
    top_function := List.replicate 256 0
    used_heap := 0
    total_heap := 0
    stop_signal := 0
    tsfn := none }

/-! ## Sampler thread (lines 63-78) -/

/-- What one pass of the `while` loop reads: the record behind `d` (its `stop_signal`
at the loop condition, its `tsfn` at the call) and the value `uv_now(d->main_loop)`
returns on line 68. -/
structure wakeup where
  data : monitor_data_t
  now : Nat
deriving DecidableEq

/-- What one executed pass of the loop body did. -/
structure iteration where
  /-- The local `now`. -/
  now : Nat
  /-- The local `delta`. -/
  delta : Nat
  /-- Whether line 72, `napi_call_threadsafe_function(d->tsfn, NULL, napi_tsfn_blocking)`, ran. -/
  delivery_requested : Bool
  /-- The handle `d->tsfn` of this pass. -/
  tsfn : Option Nat
deriving DecidableEq

/-- The subtraction `now - last_check` of two `uint64_t` (line 69). -/
def uint64_sub (a b : Nat) : Nat := (a + 2 ^ 64 - b % 2 ^ 64) % 2 ^ 64

/-- The `while (!d->stop_signal)` loop of lines 67-77, started at its condition with the
local `last_check`; one `wakeup` is consumed per evaluation of the condition. The result
lists the executed passes in order; the run ends when the flag is seen set (or when the
supplied wake-ups are used up). -/
def sampler_loop (last_check : Nat) : List wakeup → List iteration
  | [] => []
  | w :: ws =>
    if w.data.stop_signal ≠ 0 then []
    else
      let now := w.now
      let delta := uint64_sub now last_check
      { now := now, delta := delta, delivery_requested := decide (delta > 40),
        tsfn := w.data.tsfn } :: sampler_loop now ws

/-- The function `monitor_thread_func`: line 65 reads the clock once (`t0`), then the loop runs. -/
def monitor_thread_func (t0 : Nat) (ws : List wakeup) : List iteration :=
  sampler_loop t0 ws

/-! ## Snapshot capture (lines 43-61) -/

/-- The bytes of an ASCII literal of the source. -/
def ascii (s : String) : List Nat := s.toList.map Char.toNat

/-- A NUL-terminated text as a `const char*` designates it: the `char`s before the
terminator, none of which is NUL. -/
structure c_string where
  chars : List Nat
  nul_free : 0 ∉ chars

/-- The literal `"anonymous"` of line 50. -/
def anonymous : c_string := ⟨ascii "anonymous", by decide⟩

/-- The literal `"internal"` of line 50. -/
def internal : c_string := ⟨ascii "internal", by decide⟩

/-- A `v8::StackFrame` as lines 48-49 see it: `*func` and `*script`, the `char*` of the two
`String::Utf8Value`s, `none` when the pointer is `NULL` (name unavailable). -/
structure stack_frame where
  func : Option c_string
  script : Option c_string

/-- What the capture reads from the `v8::Isolate`: the heap statistics and the current
JavaScript stack, top frame first. -/
structure isolate where
  /-- Value of `HeapStatistics::used_heap_size()`, a `size_t`. -/
  used_heap_size : Nat
  /-- Value of `HeapStatistics::heap_size_limit()`, a `size_t`. -/
  heap_size_limit : Nat
  stack : List stack_frame

/-- The text the format `"%s (%s)"` of line 50 produces from its two arguments
`*func ? *func : "anonymous"` and `*script ? *script : "internal"`. -/
def format_frame (func script : Option c_string) : List Nat :=
  (func.getD anonymous).chars ++ ascii " (" ++ (script.getD internal).chars ++ ascii ")"

/-- The call `snprintf(buf, size, ...)` producing `text`: at most `size - 1` `char`s of the
text are stored from the start of `buf`, followed by a NUL; the rest of `buf` is not
touched, and nothing is stored when `size` is 0. -/
def snprintf (buf : List Nat) (size : Nat) (text : List Nat) : List Nat :=
  if size = 0 then buf
  else
    let n := min text.length (size - 1)
    text.take n ++ 0 :: buf.drop (n + 1)

/-- The function `CaptureStackTrace` (lines 43-52): `CurrentStackTrace(isolate, 1)` keeps at
most one frame; with a frame the description is formatted into `top_function`
(`sizeof` is 256), without one nothing is written. -/
def CaptureStackTrace (d : monitor_data_t) (iso : isolate) : monitor_data_t :=
  match iso.stack.take 1 with
  | [] => d
  | frame :: _ =>
    { d with top_function := snprintf d.top_function 256 (format_frame frame.func frame.script) }

/-- The function `OnMicrotasksCompleted` (lines 54-61). -/
def OnMicrotasksCompleted (d : monitor_data_t) (iso : isolate) : monitor_data_t :=
  CaptureStackTrace
    { d with
      microtasks_count := (d.microtasks_count + 1) % 2 ^ 32
      used_heap := iso.used_heap_size
      total_heap := iso.heap_size_limit }
    iso

/-! ## Delivery routine (lines 23-41) -/

/-- A JavaScript value, by the Node-API call that creates it and the C value handed to
that call. -/
inductive js_value where
  /-- Made by `napi_create_string_utf8` from these UTF-8 `char`s. -/
  | string (utf8 : List Nat)
  /-- Made by `napi_create_int64` from this `int64_t`. -/
  | int64 (v : Int)
  /-- Made by `napi_create_uint32` from this `uint32_t`. -/
  | uint32 (v : Nat)
deriving DecidableEq

/-- A JavaScript object: its own properties in creation order. -/
abbrev js_object := List (String × js_value)

/-- The call `napi_set_named_property(env, obj, name, v)`: assigns `obj[name] = v`. -/
def napi_set_named_property (obj : js_object) (name : String) (v : js_value) : js_object :=
  if obj.any (fun kv => kv.1 == name) then
    obj.map (fun kv => if kv.1 == name then (name, v) else kv)
  else obj ++ [(name, v)]

/-- The text a `char` array holds when read with `NAPI_AUTO_LENGTH` (up to the first NUL). -/
def c_str (buf : List Nat) : List Nat := buf.takeWhile (fun c => c ≠ 0)

/-- The implicit conversion of a `size_t` argument to the `int64_t` parameter of
`napi_create_int64` (lines 29-30). -/
def size_t_to_int64 (v : Nat) : Int :=
  if v % 2 ^ 64 < 2 ^ 63 then ((v % 2 ^ 64 : Nat) : Int) else ((v % 2 ^ 64 : Nat) : Int) - 2 ^ 64

/-- One `napi_call_function(env, undefined, js_callback, argc, argv, NULL)`. -/
structure js_call where
  callback : Nat
  argv : List js_object
deriving DecidableEq

/-- The function `CallJsEventHandler` (lines 23-41), run on `global_data = d`;
`active_reqs_count` is the value of `global_data.main_loop->active_reqs.count` when
line 33 runs. The result lists the calls made to `js_callback`. -/
def CallJsEventHandler (js_callback : Nat) (d : monitor_data_t) (active_reqs_count : Nat) :
    List js_call :=
  let obj : js_object := []
  let js_func := js_value.string (c_str d.top_function)
  let js_mem_used := js_value.int64 (size_t_to_int64 d.used_heap)
  let js_mem_total := js_value.int64 (size_t_to_int64 d.total_heap)
  let js_reqs := js_value.uint32 (active_reqs_count % 2 ^ 32)
  let obj := napi_set_named_property obj "function" js_func
  let obj := napi_set_named_property obj "usedHeap" js_mem_used
  let obj := napi_set_named_property obj "totalHeap" js_mem_total
  let obj := napi_set_named_property obj "activeRequests" js_reqs
  [{ callback := js_callback, argv := [obj] }]

/-! ## Lifecycle (lines 80-107) and the delivery bridge -/

/-- A thread-safe function object as `napi_create_threadsafe_function` makes it. -/
structure threadsafe_function where
  /-- The JavaScript function to call (argument `func`). -/
  js_callback : Nat
  /-- Argument `max_queue_size`; Node-API: "Maximum size of the queue. 0 for no limit." -/
  max_queue_size : Nat
  /-- Argument `initial_thread_count`. -/
  initial_thread_count : Nat
  /-- The `data` pointers of the calls queued and not yet delivered, oldest first. -/
  queue : List (Option Nat)
deriving DecidableEq

/-- State of a thread made by `uv_thread_create`. -/
inductive thread_state where
  | running
  | joined
deriving DecidableEq

/-- The add-on inside its Node.js process: the two globals of lines 20-21 and the
registrations the add-on has made with Node-API, V8 and libuv. -/
structure addon_process where
  global_data : monitor_data_t
  /-- Global `uv_thread_t monitor_thread_id`: the thread stored by the last `uv_thread_create`. -/
  monitor_thread_id : Option Nat
  /-- Thread-safe functions created so far; a handle is an index. -/
  tsfns : List threadsafe_function
  /-- Whether `OnMicrotasksCompleted` is registered with the isolate. -/
  microtasks_completed_callback : Bool
  /-- Whether the pair `(cleanup, NULL)` is registered as environment cleanup hook. -/
  cleanup_hook : Bool
  /-- Threads created so far, each running `monitor_thread_func(&global_data)`. -/
  threads : List thread_state
  /-- The calls of `uv_thread_join` made so far, by the thread id passed. -/
  join_calls : List (Option Nat)
deriving DecidableEq

/-- The process before `StartMonitor` has run. -/
def process_init : addon_process :=
  { global_data := global_data_init
    monitor_thread_id := none
    tsfns := []
    microtasks_completed_callback := false
    cleanup_hook := false
    threads := []
    join_calls := [] }

/-- How a native function called from JavaScript ends. -/
inductive completion where
  /-- It returns this `napi_value` (`none` is `NULL`) with no exception pending. -/
  | returned (value : Option js_value)
  /-- It returns with a JavaScript exception pending: the error report to the caller. -/
  | threw (message : List Nat)
  /-- The process is aborted inside the call. -/
  | aborted
deriving DecidableEq

/-- The address `uv_default_loop()` returns. -/
def uv_default_loop : Option Nat := some 0

/-- The function `StartMonitor` (lines 85-107), `observer` being the function in `args[0]`.
Node-API on `napi_add_env_cleanup_hook`: "Providing the same fun and arg values multiple
times is not allowed and will lead the process to abort." -/
def StartMonitor (p : addon_process) (observer : Nat) : addon_process × completion :=
  -- lines 92-95: max_queue_size 0, initial_thread_count 1, result stored in global_data.tsfn
  let handle := p.tsfns.length
  let p := { p with
    tsfns := p.tsfns ++ [threadsafe_function.mk observer 0 1 []]
    global_data := { p.global_data with tsfn := some handle } }
  -- line 98
  let p := { p with microtasks_completed_callback := true }
  -- lines 100-101
  let p := { p with global_data := { p.global_data with main_loop := uv_default_loop,
                                                        stop_signal := 0 } }
  -- line 103
  if p.cleanup_hook then (p, completion.aborted)
  else
    let p := { p with cleanup_hook := true }
    -- line 104
    let p := { p with threads := p.threads ++ [thread_state.running],
                      monitor_thread_id := some p.threads.length }
    -- line 106
    (p, completion.returned none)

/-- The call `uv_thread_join(&monitor_thread_id)`: waits for the thread to end; the call is
recorded, and its return value is not looked at by the caller. -/
def uv_thread_join (p : addon_process) : addon_process :=
  { p with
    join_calls := p.join_calls ++ [p.monitor_thread_id]
    threads := match p.monitor_thread_id with
      | some t => p.threads.set t thread_state.joined
      | none => p.threads }

/-- The function `cleanup` (lines 80-83). -/
def cleanup (p : addon_process) : addon_process :=
  uv_thread_join { p with global_data := { p.global_data with stop_signal := 1 } }

/-- The call `napi_call_threadsafe_function(func, data, napi_tsfn_blocking)` while no queued
call is being delivered: the call is queued unless the queue is full (`max_queue_size`
positive and reached), in which case the blocking mode waits for room and, nothing being
delivered, does not return (`none`, as for an invalid handle). -/
def napi_call_threadsafe_function (p : addon_process) (func : Option Nat) (data : Option Nat) :
    Option addon_process :=
  match func with
  | none => none
  | some h =>
    match p.tsfns[h]? with
    | none => none
    | some f =>
      if f.max_queue_size > 0 ∧ f.queue.length ≥ f.max_queue_size then none
      else some { p with tsfns := p.tsfns.set h { f with queue := f.queue ++ [data] } }

/-- The delivery requests of a sampler run (line 72, `data` is `NULL`) applied to the bridge
in order, the monitored thread delivering nothing meanwhile. -/
def hand_off (p : addon_process) : List iteration → Option addon_process
  | [] => some p
  | it :: rest =>
    if it.delivery_requested then
      (napi_call_threadsafe_function p it.tsfn none).bind (fun q => hand_off q rest)
    else hand_off p rest

/-- Number of calls queued on the thread-safe function behind a handle. -/
def pending (p : addon_process) (func : Option Nat) : Nat :=
  match func with
  | none => 0
  | some h => ((p.tsfns[h]?).map (fun f => f.queue.length)).getD 0

/-! ## Concrete inputs -/

/-- The function name `foo`. -/
def name_foo : c_string := ⟨ascii "foo", by decide⟩

/-- The script name `bar.script`. -/
def name_bar_script : c_string := ⟨ascii "bar.script", by decide⟩

/-- An isolate whose top frame is `foo` of `bar.script`, with 1000 of 4096 heap bytes used. -/
def isolate_foo : isolate :=
  { used_heap_size := 1000, heap_size_limit := 4096,
    stack := [{ func := some name_foo, script := some name_bar_script }] }

/-- An isolate with no JavaScript frame on the stack. -/
def isolate_empty_stack : isolate :=
  { used_heap_size := 2000, heap_size_limit := 4096, stack := [] }

/-- The process after a first `StartMonitor` with observer 7. -/
def process_started : addon_process := (StartMonitor process_init 7).1

/-- A wake-up of the sampler of `process_started` reading the clock value `t`. -/
def wakeup_at (t : Nat) : wakeup := { data := process_started.global_data, now := t }

/-- A function name of 300 letters `a`. -/
def name_long : c_string := ⟨List.replicate 300 97, by decide⟩

/-- An isolate whose top frame has the 300-letter function name, in `bar.script`. -/
def isolate_long : isolate :=
  { used_heap_size := 1000, heap_size_limit := 4096,
    stack := [{ func := some name_long, script := some name_bar_script }] }

set_option maxRecDepth 20000

/-! ## Sampler -/

theorem uint64_sub_of_le (a b : Nat) (hba : b ≤ a) (ha : a < 2 ^ 64) :
    uint64_sub a b = a - b := by
  unfold uint64_sub
  have hb : b % 2 ^ 64 = b := Nat.mod_eq_of_lt (by omega)
  rw [hb]
  have h : a + 2 ^ 64 - b = (a - b) + 2 ^ 64 := by omega
  rw [h, Nat.add_mod_right]
  exact Nat.mod_eq_of_lt (by omega)

theorem sampler_loop_cons_clear (last : Nat) (w : wakeup) (ws : List wakeup)
    (hw : w.data.stop_signal = 0) :
    sampler_loop last (w :: ws) =
      { now := w.now, delta := uint64_sub w.now last,
        delivery_requested := decide (uint64_sub w.now last > 40), tsfn := w.data.tsfn }
        :: sampler_loop w.now ws := by
  simp [sampler_loop, hw]

theorem sampler_loop_cons_set (last : Nat) (w : wakeup) (ws : List wakeup)
    (hw : w.data.stop_signal ≠ 0) : sampler_loop last (w :: ws) = [] := by
  simp [sampler_loop, hw]

theorem sampler_loop_length (last : Nat) (ws : List wakeup)
    (hstop : ∀ w ∈ ws, w.data.stop_signal = 0) :
    (sampler_loop last ws).length = ws.length := by
  induction ws generalizing last with
  | nil => simp [sampler_loop]
  | cons w ws ih =>
    rw [sampler_loop_cons_clear last w ws (hstop w (by simp))]
    simp [ih w.now (fun v hv => hstop v (by simp [hv]))]

/-- Pass `k` of a run whose wake-ups all see the flag clear: its `now` is reading `k`, its
`delta` the `uint64_t` difference to the reading before (the one of line 65 for `k = 0`). -/
theorem sampler_loop_get (last : Nat) (ws : List wakeup)
    (hstop : ∀ w ∈ ws, w.data.stop_signal = 0) (k : Nat) (w : wakeup) (hk : ws[k]? = some w) :
    (sampler_loop last ws)[k]? =
      some { now := w.now
             delta := uint64_sub w.now ((last :: ws.map (fun v => v.now)).getD k 0)
             delivery_requested :=
               decide (uint64_sub w.now ((last :: ws.map (fun v => v.now)).getD k 0) > 40)
             tsfn := w.data.tsfn } := by
  induction ws generalizing last k with
  | nil => simp at hk
  | cons v ws ih =>
    rw [sampler_loop_cons_clear last v ws (hstop v (by simp))]
    cases k with
    | zero =>
      simp at hk
      subst hk
      simp
    | succ k =>
      simp at hk
      have := ih v.now (fun u hu => hstop u (by simp [hu])) k hk
      simpa using this

/-- C1. With the stop flag clear at every wake-up and non-decreasing `uint64_t` clock
readings `t0, t1, ..., tn` (`t0` read on line 65, `tk` by pass `k`), `monitor_thread_func`
executes one pass per wake-up, and pass `k` requests a delivery if and only if
`tk - t(k-1) > 40`, strictly, where `t(k-1)` is the reading of the pass before whether or
not that pass requested a delivery; so when no two consecutive readings differ by more
than 40, no pass of the run requests a delivery. -/
theorem monitor_thread_func_requests_iff (t0 : Nat) (ws : List wakeup)
    (hstop : ∀ w ∈ ws, w.data.stop_signal = 0)
    (hmono : List.Chain (fun a b => a ≤ b) t0 (ws.map (fun w => w.now)))
    (hrange : ∀ w ∈ ws, w.now < 2 ^ 64) :
    (monitor_thread_func t0 ws).length = ws.length ∧
    (∀ k, k < ws.length →
      ∃ it, (monitor_thread_func t0 ws)[k]? = some it ∧
        (it.delivery_requested = true ↔
          (t0 :: ws.map (fun w => w.now)).getD (k + 1) 0
            - (t0 :: ws.map (fun w => w.now)).getD k 0 > 40)) ∧
    ((∀ k, k < ws.length →
        (t0 :: ws.map (fun w => w.now)).getD (k + 1) 0
          - (t0 :: ws.map (fun w => w.now)).getD k 0 ≤ 40) →
      ∀ it ∈ monitor_thread_func t0 ws, it.delivery_requested = false) := by
  have hlen := sampler_loop_length t0 ws hstop
  have key : ∀ k, k < ws.length →
      ∃ it, (monitor_thread_func t0 ws)[k]? = some it ∧
        (it.delivery_requested = true ↔
          (t0 :: ws.map (fun w => w.now)).getD (k + 1) 0
            - (t0 :: ws.map (fun w => w.now)).getD k 0 > 40) := by
    intro k hk
    have hwk : ws[k]? = some ws[k] := by simp [hk]
    refine ⟨_, sampler_loop_get t0 ws hstop k ws[k] hwk, ?_⟩
    have hnow : (t0 :: ws.map (fun w => w.now)).getD (k + 1) 0 = ws[k].now := by
      simp [List.getD, hk]
    have hle : (t0 :: ws.map (fun w => w.now)).getD k 0 ≤ ws[k].now := by
      have hch : List.Chain' (fun a b => a ≤ b) (t0 :: ws.map (fun w => w.now)) := hmono
      have := (List.chain'_iff_get.mp hch) k (by simp; omega)
      simpa [List.getD, hk, Nat.lt_succ_of_lt hk] using this
    rw [hnow, uint64_sub_of_le _ _ hle (hrange _ (List.getElem_mem _))]
    simp
  refine ⟨hlen, key, ?_⟩
  intro hsmall it hit
  obtain ⟨k, hk, hget⟩ := List.getElem_of_mem hit
  have hk2 : k < ws.length := by
    have : (monitor_thread_func t0 ws).length = ws.length := hlen
    omega
  obtain ⟨it2, hit2, hiff⟩ := key k hk2
  have heq : it2 = it := by
    have : (monitor_thread_func t0 ws)[k]? = some it := by
      rw [List.getElem?_eq_getElem hk, hget]
    rw [this] at hit2
    exact (Option.some.inj hit2).symm
  subst heq
  have := hsmall k hk2
  cases hreq : it2.delivery_requested with
  | false => rfl
  | true =>
    have := hiff.mp hreq
    omega

/-- Witness of C1: readings 0, 16, 57, 97 give differences 16, 41, 40. -/
theorem monitor_thread_func_requests_iff_witness :
    (monitor_thread_func 0 [wakeup_at 16, wakeup_at 57, wakeup_at 97]).map
        (fun it => it.delivery_requested) = [false, true, false] ∧
    ∃ it, (monitor_thread_func 0 [wakeup_at 16, wakeup_at 57, wakeup_at 97])[1]? = some it ∧
      (it.delivery_requested = true ↔
        (0 :: [wakeup_at 16, wakeup_at 57, wakeup_at 97].map (fun w => w.now)).getD (1 + 1) 0
          - (0 :: [wakeup_at 16, wakeup_at 57, wakeup_at 97].map (fun w => w.now)).getD 1 0
          > 40) :=
  ⟨by decide,
   (monitor_thread_func_requests_iff 0 [wakeup_at 16, wakeup_at 57, wakeup_at 97]
      (by decide) (by simp [wakeup_at]) (by decide)).2.1 1 (by decide)⟩

/-- Once every later wake-up sees the flag set, the run is the run made before them. -/
theorem sampler_loop_append_set (last : Nat) (before after : List wakeup)
    (hafter : ∀ w ∈ after, w.data.stop_signal ≠ 0) :
    sampler_loop last (before ++ after) = sampler_loop last before := by
  induction before generalizing last with
  | nil =>
    cases after with
    | nil => rfl
    | cons w ws => simpa [sampler_loop] using (hafter w (by simp))
  | cons v vs ih =>
    by_cases hv : v.data.stop_signal = 0
    · rw [List.cons_append, sampler_loop_cons_clear _ _ _ hv, sampler_loop_cons_clear _ _ _ hv,
        ih]
    · rw [List.cons_append, sampler_loop_cons_set _ _ _ hv, sampler_loop_cons_set _ _ _ hv]

/-- C6. `cleanup` sets the stop flag whatever the state, and wake-ups that see the flag set
make no pass through the loop body: started at its condition with any `last_check`, the
loop executes zero passes, requests no delivery and leaves the bridge as it is; a whole
run of `monitor_thread_func` continued by such wake-ups is the run made before them. -/
theorem cleanup_stops_sampler (p q : addon_process) (t0 last : Nat)
    (before after : List wakeup) (hafter : ∀ w ∈ after, w.data.stop_signal ≠ 0) :
    (cleanup p).global_data.stop_signal = 1 ∧
    (cleanup p).global_data.stop_signal ≠ 0 ∧
    sampler_loop last after = [] ∧
    (sampler_loop last after).filter (fun it => it.delivery_requested) = [] ∧
    hand_off q (sampler_loop last after) = some q ∧
    monitor_thread_func t0 (before ++ after) = monitor_thread_func t0 before := by
  have hnil : sampler_loop last after = [] := by
    simpa [sampler_loop] using sampler_loop_append_set last [] after hafter
  refine ⟨by simp [cleanup, uv_thread_join], by simp [cleanup, uv_thread_join], hnil, ?_, ?_,
    sampler_loop_append_set t0 before after hafter⟩
  · rw [hnil]; rfl
  · rw [hnil]; rfl

/-- Witness of C6: the sampler of `process_started` after `cleanup`, with two wake-ups
before and two after the flag is set. -/
theorem cleanup_stops_sampler_witness :
    (∀ w ∈ [wakeup.mk (cleanup process_started).global_data 150,
            wakeup.mk (cleanup process_started).global_data 250], w.data.stop_signal ≠ 0) ∧
    sampler_loop 100 [wakeup.mk (cleanup process_started).global_data 150,
                      wakeup.mk (cleanup process_started).global_data 250] = [] ∧
    monitor_thread_func 0 ([wakeup_at 50, wakeup_at 100] ++
        [wakeup.mk (cleanup process_started).global_data 150,
         wakeup.mk (cleanup process_started).global_data 250])
      = monitor_thread_func 0 [wakeup_at 50, wakeup_at 100] :=
  ⟨by decide,
   (cleanup_stops_sampler process_started process_started 0 100 [wakeup_at 50, wakeup_at 100]
      [wakeup.mk (cleanup process_started).global_data 150,
       wakeup.mk (cleanup process_started).global_data 250] (by decide)).2.2.1,
   (cleanup_stops_sampler process_started process_started 0 100 [wakeup_at 50, wakeup_at 100]
      [wakeup.mk (cleanup process_started).global_data 150,
       wakeup.mk (cleanup process_started).global_data 250] (by decide)).2.2.2.2.2⟩

/-! ## Snapshot capture and delivery -/

theorem format_frame_nul_free (func script : Option c_string) :
    0 ∉ format_frame func script := by
  have h1 := (func.getD anonymous).nul_free
  have h2 := (script.getD internal).nul_free
  have h3 : 0 ∉ ascii " (" := by decide
  have h4 : 0 ∉ ascii ")" := by decide
  simp only [format_frame, List.mem_append, not_or]
  exact ⟨⟨⟨h1, h3⟩, h2⟩, h4⟩

theorem snprintf_length (buf text : List Nat) (size : Nat) (hsize : 0 < size)
    (hbuf : size ≤ buf.length) : (snprintf buf size text).length = buf.length := by
  unfold snprintf
  rw [if_neg (by omega)]
  simp only [List.length_append, List.length_take, List.length_cons, List.length_drop]
  omega

theorem c_str_snprintf (buf text : List Nat) (size : Nat) (hsize : 0 < size)
    (htext : 0 ∉ text) :
    c_str (snprintf buf size text) = text.take (min text.length (size - 1)) := by
  unfold snprintf c_str
  rw [if_neg (by omega)]
  have hpre : ∀ a ∈ text.take (min text.length (size - 1)),
      (fun c : Nat => decide (c ≠ 0)) a = true := by
    intro a ha
    have hmem : a ∈ text := List.mem_of_mem_take ha
    have : a ≠ 0 := fun h => htext (h ▸ hmem)
    simpa using this
  rw [List.takeWhile_append_of_pos hpre]
  simp

theorem snprintf_terminator (buf text : List Nat) (size : Nat) (hsize : 0 < size) :
    (snprintf buf size text)[min text.length (size - 1)]? = some 0 := by
  unfold snprintf
  rw [if_neg (by omega)]
  have hlen : (text.take (min text.length (size - 1))).length = min text.length (size - 1) := by
    simp
  rw [List.getElem?_append_right (by omega)]
  simp [hlen]

theorem CaptureStackTrace_frame (d : monitor_data_t) (iso : isolate) (frame : stack_frame)
    (below : List stack_frame) (hstack : iso.stack = frame :: below) :
    CaptureStackTrace d iso =
      { d with top_function :=
          snprintf d.top_function 256 (format_frame frame.func frame.script) } := by
  simp [CaptureStackTrace, hstack]

theorem CaptureStackTrace_no_frame (d : monitor_data_t) (iso : isolate)
    (hstack : iso.stack = []) : CaptureStackTrace d iso = d := by
  simp [CaptureStackTrace, hstack]

/-- The snapshot `CallJsEventHandler` builds and the single call it makes. -/
theorem CallJsEventHandler_eq (js_callback : Nat) (d : monitor_data_t) (count : Nat) :
    CallJsEventHandler js_callback d count =
      [{ callback := js_callback
         argv := [[("function", js_value.string (c_str d.top_function)),
                   ("usedHeap", js_value.int64 (size_t_to_int64 d.used_heap)),
                   ("totalHeap", js_value.int64 (size_t_to_int64 d.total_heap)),
                   ("activeRequests", js_value.uint32 (count % 2 ^ 32))]] }] := by
  rfl

/-- C4. Whatever the lengths of the function name and the script name of the captured
frame (each replaced by its fallback when unavailable), `CaptureStackTrace` leaves
`top_function` a 256-`char` array (nothing is stored past it) holding a NUL-terminated text
of at most 255 `char`s: the first `min (full length) 255` `char`s of `<name> (<script>)`,
with the NUL right behind them; every other field of the record is unchanged. -/
theorem CaptureStackTrace_bounded (d : monitor_data_t) (iso : isolate) (frame : stack_frame)
    (below : List stack_frame) (hstack : iso.stack = frame :: below)
    (hbuf : d.top_function.length = 256) :
    (CaptureStackTrace d iso).top_function.length = 256 ∧
    c_str (CaptureStackTrace d iso).top_function =
      (format_frame frame.func frame.script).take
        (min (format_frame frame.func frame.script).length 255) ∧
    (c_str (CaptureStackTrace d iso).top_function).length =
      min (format_frame frame.func frame.script).length 255 ∧
    (c_str (CaptureStackTrace d iso).top_function).length ≤ 255 ∧
    (CaptureStackTrace d iso).top_function[
      min (format_frame frame.func frame.script).length 255]? = some 0 ∧
    (CaptureStackTrace d iso).used_heap = d.used_heap ∧
    (CaptureStackTrace d iso).total_heap = d.total_heap ∧
    (CaptureStackTrace d iso).stop_signal = d.stop_signal ∧
    (CaptureStackTrace d iso).microtasks_count = d.microtasks_count ∧
    (CaptureStackTrace d iso).main_loop = d.main_loop ∧
    (CaptureStackTrace d iso).tsfn = d.tsfn := by
  rw [CaptureStackTrace_frame d iso frame below hstack]
  have hstr := c_str_snprintf d.top_function (format_frame frame.func frame.script) 256
    (by decide) (format_frame_nul_free frame.func frame.script)
  have hterm := snprintf_terminator d.top_function (format_frame frame.func frame.script) 256
    (by decide)
  have hlen := snprintf_length d.top_function (format_frame frame.func frame.script) 256
    (by decide) (by omega)
  simp only [Nat.add_one_sub_one, Nat.reduceSub] at hstr hterm
  refine ⟨by rw [hlen, hbuf], hstr, ?_, ?_, hterm, rfl, rfl, rfl, rfl, rfl, rfl⟩
  · simp only [hstr, List.length_take]
    omega
  · simp only [hstr, List.length_take]
    omega

/-- Witness of C4: a 300-letter function name; the stored text is 255 `char`s long. -/
theorem CaptureStackTrace_bounded_witness :
    isolate_long.stack = { func := some name_long, script := some name_bar_script } :: [] ∧
    global_data_init.top_function.length = 256 ∧
    (format_frame (some name_long) (some name_bar_script)).length = 313 ∧
    (CaptureStackTrace global_data_init isolate_long).top_function.length = 256 ∧
    (c_str (CaptureStackTrace global_data_init isolate_long).top_function).length = 255 :=
  ⟨rfl, by decide, by decide,
   (CaptureStackTrace_bounded global_data_init isolate_long _ [] rfl (by decide)).1,
   (CaptureStackTrace_bounded global_data_init isolate_long _ [] rfl (by decide)).2.2.1⟩

/-- C9, as stated, fails: after a capture of `foo (bar.script)`, a drain with an empty stack
leaves that text in place; the fallback text is not stored. -/
theorem OnMicrotasksCompleted_empty_stack_counterexample :
    isolate_empty_stack.stack.length = 0 ∧
    c_str (OnMicrotasksCompleted (OnMicrotasksCompleted global_data_init isolate_foo)
        isolate_empty_stack).top_function = ascii "foo (bar.script)" ∧
    c_str (OnMicrotasksCompleted (OnMicrotasksCompleted global_data_init isolate_foo)
        isolate_empty_stack).top_function ≠ ascii "anonymous (internal)" := by
  decide

/-- C9, amended. When the stack has no frame at a queue-drain event, `OnMicrotasksCompleted`
leaves `top_function` as it was (the text of the last capture with a frame, or the initial
content); it still counts the event and stores the heap statistics, and touches nothing else. -/
theorem OnMicrotasksCompleted_empty_stack (d : monitor_data_t) (iso : isolate)
    (hstack : iso.stack = []) :
    (OnMicrotasksCompleted d iso).top_function = d.top_function ∧
    OnMicrotasksCompleted d iso =
      { d with microtasks_count := (d.microtasks_count + 1) % 2 ^ 32
               used_heap := iso.used_heap_size
               total_heap := iso.heap_size_limit } := by
  unfold OnMicrotasksCompleted
  rw [CaptureStackTrace_no_frame _ iso hstack]
  exact ⟨rfl, rfl⟩

/-- Witness of C9 amended: a drain with an empty stack after the capture of `foo (bar.script)`. -/
theorem OnMicrotasksCompleted_empty_stack_witness :
    isolate_empty_stack.stack = [] ∧
    (OnMicrotasksCompleted (OnMicrotasksCompleted global_data_init isolate_foo)
        isolate_empty_stack).top_function =
      (OnMicrotasksCompleted global_data_init isolate_foo).top_function :=
  ⟨rfl, (OnMicrotasksCompleted_empty_stack (OnMicrotasksCompleted global_data_init isolate_foo)
      isolate_empty_stack rfl).1⟩

/-! ## Lifecycle -/

theorem StartMonitor_bridge (p : addon_process) (observer : Nat) :
    (StartMonitor p observer).1.tsfns = p.tsfns ++ [threadsafe_function.mk observer 0 1 []] ∧
    (StartMonitor p observer).1.global_data =
      { p.global_data with tsfn := some p.tsfns.length, main_loop := uv_default_loop,
                           stop_signal := 0 } := by
  unfold StartMonitor
  by_cases h : p.cleanup_hook = true <;> simp [h]

/-- C10, as stated, fails: a delivery right after the first `StartMonitor` has the empty
text as `function`, not the fallback text. -/
theorem delivery_before_first_drain_counterexample :
    ∃ snapshot : js_object,
      CallJsEventHandler 7 (StartMonitor process_init 7).1.global_data 0 =
        [{ callback := 7, argv := [snapshot] }] ∧
      snapshot.lookup "function" = some (js_value.string []) ∧
      snapshot.lookup "function" ≠ some (js_value.string (ascii "anonymous (internal)")) :=
  ⟨_, CallJsEventHandler_eq 7 (StartMonitor process_init 7).1.global_data 0,
    by decide, by decide⟩

/-- C10, amended. When no queue-drain event has occurred since start, the `function` of a
delivered snapshot is the empty text: `top_function` is zero-initialised, `StartMonitor`
does not write it, and the heap fields of the snapshot are 0. -/
theorem delivery_before_first_drain (observer js_callback count : Nat) :
    (StartMonitor process_init observer).1.global_data.top_function = List.replicate 256 0 ∧
    CallJsEventHandler js_callback (StartMonitor process_init observer).1.global_data count =
      [{ callback := js_callback
         argv := [[("function", js_value.string []),
                   ("usedHeap", js_value.int64 0),
                   ("totalHeap", js_value.int64 0),
                   ("activeRequests", js_value.uint32 (count % 2 ^ 32))]] }] := by
  rw [CallJsEventHandler_eq, (StartMonitor_bridge process_init observer).2]
  exact ⟨rfl, rfl⟩

/-! ## Delivery bridge -/

theorem sampler_loop_mem (last : Nat) (ws : List wakeup) (it : iteration)
    (hit : it ∈ sampler_loop last ws) :
    (∃ w ∈ ws, it.tsfn = w.data.tsfn) ∧ it.delivery_requested = decide (it.delta > 40) := by
  induction ws generalizing last with
  | nil => simp [sampler_loop] at hit
  | cons w ws ih =>
    by_cases hw : w.data.stop_signal = 0
    · rw [sampler_loop_cons_clear last w ws hw] at hit
      rcases List.mem_cons.mp hit with h | h
      · subst h
        exact ⟨⟨w, by simp, rfl⟩, rfl⟩
      · obtain ⟨⟨v, hv, hvt⟩, hreq⟩ := ih w.now h
        exact ⟨⟨v, by simp [hv], hvt⟩, hreq⟩
    · rw [sampler_loop_cons_set last w ws hw] at hit
      simp at hit

/-- On a thread-safe function without queue limit every request of a run is queued. -/
theorem hand_off_no_limit (p : addon_process) (h : Nat) (f : threadsafe_function)
    (run : List iteration) (hf : p.tsfns[h]? = some f) (hmax : f.max_queue_size = 0)
    (hrun : ∀ it ∈ run, it.tsfn = some h) :
    ∃ q g, hand_off p run = some q ∧ q.tsfns[h]? = some g ∧ g.max_queue_size = 0 ∧
      g.queue.length =
        f.queue.length + (run.filter (fun it => it.delivery_requested)).length := by
  induction run generalizing p f with
  | nil => exact ⟨p, f, rfl, hf, hmax, by simp⟩
  | cons it rest ih =>
    have hrest : ∀ jt ∈ rest, jt.tsfn = some h := fun jt hjt => hrun jt (by simp [hjt])
    cases hreq : it.delivery_requested with
    | false =>
      obtain ⟨q, g, hq, hg, hgmax, hglen⟩ := ih p f hf hmax hrest
      refine ⟨q, g, ?_, hg, hgmax, ?_⟩
      · simp [hand_off, hreq, hq]
      · simp [hreq, hglen]
    | true =>
      have hlt : h < p.tsfns.length := by
        rcases Nat.lt_or_ge h p.tsfns.length with hlt | hge
        · exact hlt
        · rw [List.getElem?_eq_none hge] at hf
          cases hf
      have hcall : napi_call_threadsafe_function p it.tsfn none =
          some { p with tsfns := p.tsfns.set h { f with queue := f.queue ++ [none] } } := by
        simp [napi_call_threadsafe_function, hrun it (by simp), hf, hmax]
      obtain ⟨q, g, hq, hg, hgmax, hglen⟩ :=
        ih { p with tsfns := p.tsfns.set h { f with queue := f.queue ++ [none] } }
          { f with queue := f.queue ++ [none] }
          (by simp [hlt]) hmax hrest
      refine ⟨q, g, ?_, hg, hgmax, ?_⟩
      · simp [hand_off, hreq, hcall, hq]
      · simp [hreq, hglen]
        omega

/-- C5, as stated, fails: two stall passes (readings 0, 100, 200) before any delivery leave
two requests queued on the bridge `StartMonitor` created, not at most one. -/
theorem single_slot_counterexample :
    ((monitor_thread_func 0 [wakeup_at 100, wakeup_at 200]).filter
        (fun it => decide (it.delta > 40))).length = 2 ∧
    (hand_off process_started (monitor_thread_func 0 [wakeup_at 100, wakeup_at 200])).map
        (fun q => pending q process_started.global_data.tsfn) = some 2 ∧
    ¬ ∀ q, hand_off process_started (monitor_thread_func 0 [wakeup_at 100, wakeup_at 200])
          = some q → pending q process_started.global_data.tsfn ≤ 1 := by
  refine ⟨by decide, by decide, ?_⟩
  intro hall
  have h2 : (hand_off process_started
      (monitor_thread_func 0 [wakeup_at 100, wakeup_at 200])).map
        (fun q => pending q process_started.global_data.tsfn) = some 2 := by decide
  cases hq : hand_off process_started (monitor_thread_func 0 [wakeup_at 100, wakeup_at 200]) with
  | none => rw [hq] at h2; cases h2
  | some q =>
    have hle := hall q hq
    rw [hq] at h2
    simp at h2
    omega

/-- C5, amended. `StartMonitor` creates the bridge with `max_queue_size` 0, which is no
limit: when the sampler, calling through the handle `StartMonitor` stored, makes `N` passes
with `delta > 40` before the monitored thread executes any delivery, every one of its
requests is accepted and exactly `N` requests are queued on the bridge. -/
theorem stall_requests_all_queued (p0 : addon_process) (observer t0 : Nat) (ws : List wakeup)
    (hws : ∀ w ∈ ws, w.data.tsfn = (StartMonitor p0 observer).1.global_data.tsfn) :
    (∃ f, (StartMonitor p0 observer).1.global_data.tsfn = some p0.tsfns.length ∧
      (StartMonitor p0 observer).1.tsfns[p0.tsfns.length]? = some f ∧
      f.max_queue_size = 0 ∧ f.queue = []) ∧
    ∃ q, hand_off (StartMonitor p0 observer).1 (monitor_thread_func t0 ws) = some q ∧
      pending q (StartMonitor p0 observer).1.global_data.tsfn =
        ((monitor_thread_func t0 ws).filter (fun it => decide (it.delta > 40))).length := by
  obtain ⟨htsfns, hdata⟩ := StartMonitor_bridge p0 observer
  have hhandle : (StartMonitor p0 observer).1.global_data.tsfn = some p0.tsfns.length := by
    rw [hdata]
  have hget : (StartMonitor p0 observer).1.tsfns[p0.tsfns.length]? =
      some (threadsafe_function.mk observer 0 1 []) := by
    rw [htsfns]
    exact List.getElem?_concat_length _ _
  refine ⟨⟨_, hhandle, hget, rfl, rfl⟩, ?_⟩
  have hrun : ∀ it ∈ monitor_thread_func t0 ws, it.tsfn = some p0.tsfns.length := by
    intro it hit
    obtain ⟨⟨w, hw, hwt⟩, _⟩ := sampler_loop_mem t0 ws it hit
    rw [hwt, hws w hw, hhandle]
  obtain ⟨q, g, hq, hg, _, hglen⟩ :=
    hand_off_no_limit (StartMonitor p0 observer).1 p0.tsfns.length _
      (monitor_thread_func t0 ws) hget rfl hrun
  refine ⟨q, hq, ?_⟩
  have hfilter : (monitor_thread_func t0 ws).filter (fun it => decide (it.delta > 40)) =
      (monitor_thread_func t0 ws).filter (fun it => it.delivery_requested) := by
    apply List.filter_congr
    intro it hit
    exact ((sampler_loop_mem t0 ws it hit).2).symm
  rw [hhandle, hfilter]
  simp [pending, hg, hglen]

/-- Witness of C5 amended: three stall passes of the sampler of `process_started`. -/
theorem stall_requests_all_queued_witness :
    (∀ w ∈ [wakeup_at 100, wakeup_at 116, wakeup_at 200, wakeup_at 300],
      w.data.tsfn = (StartMonitor process_init 7).1.global_data.tsfn) ∧
    ((monitor_thread_func 0 [wakeup_at 100, wakeup_at 116, wakeup_at 200, wakeup_at 300]).filter
      (fun it => decide (it.delta > 40))).length = 3 ∧
    ∃ q, hand_off (StartMonitor process_init 7).1
        (monitor_thread_func 0 [wakeup_at 100, wakeup_at 116, wakeup_at 200, wakeup_at 300])
          = some q ∧
      pending q (StartMonitor process_init 7).1.global_data.tsfn =
        ((monitor_thread_func 0
          [wakeup_at 100, wakeup_at 116, wakeup_at 200, wakeup_at 300]).filter
            (fun it => decide (it.delta > 40))).length :=
  ⟨by decide, by decide,
   (stall_requests_all_queued process_init 7 0
      [wakeup_at 100, wakeup_at 116, wakeup_at 200, wakeup_at 300] (by decide)).2⟩

/-! ## Start and stop -/

/-- C7, as stated, fails: the second `StartMonitor` reports no error to its caller and
replaces the delivery handle `tsfn`. -/
theorem second_StartMonitor_counterexample :
    (StartMonitor process_init 7).2 = completion.returned none ∧
    ¬ ((∃ m, (StartMonitor (StartMonitor process_init 7).1 7).2 = completion.threw m) ∧
       (StartMonitor (StartMonitor process_init 7).1 7).1.threads
         = (StartMonitor process_init 7).1.threads ∧
       (StartMonitor (StartMonitor process_init 7).1 7).1.global_data.tsfn
         = (StartMonitor process_init 7).1.global_data.tsfn ∧
       (StartMonitor (StartMonitor process_init 7).1 7).1.global_data.main_loop
         = (StartMonitor process_init 7).1.global_data.main_loop ∧
       (StartMonitor (StartMonitor process_init 7).1 7).1.global_data.stop_signal
         = (StartMonitor process_init 7).1.global_data.stop_signal) := by
  refine ⟨by decide, ?_⟩
  rintro ⟨_, _, htsfn, _, _⟩
  revert htsfn
  decide

/-- C7, amended. `StartMonitor` has no check for an earlier start. A second call after a
successful first one reports no error to its caller: it creates a new thread-safe function
and stores its handle in `tsfn` in place of the first, stores `main_loop` and
`stop_signal` again with the values they have, and then registers `cleanup` a second time,
on which Node-API aborts the process; the call does not return and line 104 is not
reached, so no second sampler thread is created. -/
theorem second_StartMonitor (p0 : addon_process) (first second : Nat)
    (hfirst : (StartMonitor p0 first).2 = completion.returned none) :
    (StartMonitor (StartMonitor p0 first).1 second).2 = completion.aborted ∧
    (∀ m, (StartMonitor (StartMonitor p0 first).1 second).2 ≠ completion.threw m) ∧
    (StartMonitor (StartMonitor p0 first).1 second).1.tsfns =
      (StartMonitor p0 first).1.tsfns ++ [threadsafe_function.mk second 0 1 []] ∧
    (StartMonitor (StartMonitor p0 first).1 second).1.global_data.tsfn =
      some (p0.tsfns.length + 1) ∧
    (StartMonitor p0 first).1.global_data.tsfn = some p0.tsfns.length ∧
    (StartMonitor (StartMonitor p0 first).1 second).1.global_data.main_loop =
      (StartMonitor p0 first).1.global_data.main_loop ∧
    (StartMonitor (StartMonitor p0 first).1 second).1.global_data.stop_signal =
      (StartMonitor p0 first).1.global_data.stop_signal ∧
    (StartMonitor (StartMonitor p0 first).1 second).1.threads =
      (StartMonitor p0 first).1.threads ∧
    (StartMonitor (StartMonitor p0 first).1 second).1.monitor_thread_id =
      (StartMonitor p0 first).1.monitor_thread_id := by
  have hhook0 : p0.cleanup_hook = false := by
    cases hc : p0.cleanup_hook with
    | false => rfl
    | true => simp [StartMonitor, hc] at hfirst
  have hhook1 : (StartMonitor p0 first).1.cleanup_hook = true := by
    simp [StartMonitor, hhook0]
  have hlen : (StartMonitor p0 first).1.tsfns.length = p0.tsfns.length + 1 := by
    simp [(StartMonitor_bridge p0 first).1]
  have hdata1 := (StartMonitor_bridge p0 first).2
  have hdata2 := (StartMonitor_bridge (StartMonitor p0 first).1 second).2
  have hsecond : StartMonitor (StartMonitor p0 first).1 second =
      ({ (StartMonitor p0 first).1 with
          tsfns := (StartMonitor p0 first).1.tsfns ++ [threadsafe_function.mk second 0 1 []]
          global_data := { (StartMonitor p0 first).1.global_data with
            tsfn := some (StartMonitor p0 first).1.tsfns.length
            main_loop := uv_default_loop
            stop_signal := 0 }
          microtasks_completed_callback := true }, completion.aborted) := by
    generalize StartMonitor p0 first = r at hhook1
    simp [StartMonitor, hhook1]
  refine ⟨by rw [hsecond], ?_, by rw [hsecond], ?_, by rw [hdata1], ?_, ?_,
    by rw [hsecond], by rw [hsecond]⟩
  · intro m
    rw [hsecond]
    simp
  · rw [hdata2, hlen]
  · rw [hdata2, hdata1]
  · rw [hdata2, hdata1]

/-- Witness of C7 amended: two calls with observers 7 and 8 from the initial process. -/
theorem second_StartMonitor_witness :
    (StartMonitor process_init 7).2 = completion.returned none ∧
    (StartMonitor (StartMonitor process_init 7).1 8).2 = completion.aborted ∧
    (StartMonitor (StartMonitor process_init 7).1 8).1.global_data.tsfn = some (0 + 1) :=
  ⟨by decide,
   (second_StartMonitor process_init 7 8 (by decide)).1,
   (second_StartMonitor process_init 7 8 (by decide)).2.2.2.1⟩

/-- C8, as stated, fails: two calls of `cleanup` on the started monitor make two calls of
`uv_thread_join`, so the second call is not a no-op. -/
theorem cleanup_twice_counterexample :
    (cleanup (cleanup process_started)).join_calls = [some 0, some 0] ∧
    ¬ ((cleanup (cleanup process_started)).join_calls.length = 1 ∧
       cleanup (cleanup process_started) = cleanup process_started) := by
  refine ⟨by decide, ?_⟩
  rintro ⟨hlen, _⟩
  revert hlen
  decide

/-- C8, amended. `cleanup` has no check for an earlier stop. Called twice in a row on a
running monitor, it leaves the monitor record as one call does (stop flag set) and the
sampler thread is joined by the first call, but the second call is not a no-op: every
call makes its own `uv_thread_join` on `monitor_thread_id`, two join attempts in all. -/
theorem cleanup_twice (p : addon_process) (t : Nat) (hid : p.monitor_thread_id = some t)
    (hrun : p.threads[t]? = some thread_state.running) :
    (cleanup (cleanup p)).global_data = (cleanup p).global_data ∧
    (cleanup p).global_data.stop_signal = 1 ∧
    (cleanup p).threads[t]? = some thread_state.joined ∧
    (cleanup p).join_calls = p.join_calls ++ [some t] ∧
    (cleanup (cleanup p)).join_calls = p.join_calls ++ [some t, some t] := by
  have hlt : t < p.threads.length := by
    rcases Nat.lt_or_ge t p.threads.length with hlt | hge
    · exact hlt
    · rw [List.getElem?_eq_none hge] at hrun
      cases hrun
  refine ⟨by simp [cleanup, uv_thread_join], by simp [cleanup, uv_thread_join], ?_, ?_, ?_⟩
  · simp [cleanup, uv_thread_join, hid, hlt]
  · simp [cleanup, uv_thread_join, hid]
  · simp [cleanup, uv_thread_join, hid]

/-- Witness of C8 amended: the started monitor, whose sampler is thread 0. -/
theorem cleanup_twice_witness :
    process_started.monitor_thread_id = some 0 ∧
    process_started.threads[0]? = some thread_state.running ∧
    (cleanup (cleanup process_started)).global_data = (cleanup process_started).global_data ∧
    (cleanup (cleanup process_started)).join_calls = [] ++ [some 0, some 0] :=
  ⟨by decide, by decide,
   (cleanup_twice process_started 0 (by decide) (by decide)).1,
   (cleanup_twice process_started 0 (by decide) (by decide)).2.2.2.2⟩

end Monitor
